import Mathlib

/-!
Verification of the dice-mosaic page (`Calculate.tsx`) and its preview renderer
(`DiceCanvas`).  The definitions below are a shallow embedding of the TypeScript
source: JavaScript `undefined` is `Option.none`, string truthiness (`""` is
falsy) is modelled explicitly, and array indexing out of range yields `none`
exactly as in JavaScript.  Machine floats only ever enter through the cell-size
comparison `zoomedCellSize > 6`, modelled over `ℚ`.
-/

namespace DiceMosaic

/-- The dice theme selection, `"black" | "white" | "mixed"` in the source. -/
inductive Theme where
  | black
  | white
  | mixed
  deriving DecidableEq

/-- The `faceColors` record of `Settings`: one fill color per face value 1..6
(`{ 1: string, 2: string, 3: string, 4: string, 5: string, 6: string }`). -/
structure FaceColors where
  c1 : String
  c2 : String
  c3 : String
  c4 : String
  c5 : String
  c6 : String
  deriving DecidableEq

/-- JavaScript property access `faceColors[n]`: defined for the record keys
1..6, `undefined` (`none`) for any other index. -/
def FaceColors.lookup (fc : FaceColors) : Nat → Option String
  | 1 => some fc.c1
  | 2 => some fc.c2
  | 3 => some fc.c3
  | 4 => some fc.c4
  | 5 => some fc.c5
  | 6 => some fc.c6
  | _ => none

/-- One cell of the `editedGrid` state
(`{ face: number; color?: string; pipColor?: string }` in `Calculate.tsx`;
`DiceCanvas` receives it through the weaker prop type `face?: number`, so the
face is kept optional here and the renderer's `typeof` guard is modelled). -/
structure OverrideCell where
  face : Option Nat
  color : Option String
  pipColor : Option String
  deriving DecidableEq

/-- The generated dice grid `number[][]`. -/
abbrev Grid := List (List Nat)

/-- The manual-override grid `editedGrid` (without the `null` case, which is
carried as `Option OverrideGrid` where needed). -/
abbrev OverrideGrid := List (List OverrideCell)

/-- JavaScript truthiness of a `string | undefined` value: `undefined` and the
empty string are falsy. -/
def truthyOpt : Option String → Bool
  | none => false
  | some s => decide (s ≠ "")

/-- JavaScript `x || d` for `x : string | undefined` and a string default. -/
def jsOrS (x : Option String) (d : String) : String :=
  match x with
  | none => d
  | some s => if s = "" then d else s

/-- A face value is in range when it lies in 1..6 (`FaceValue` of the spec). -/
def faceInRange (n : Nat) : Bool := decide (1 ≤ n) && decide (n ≤ 6)

/-- Nested lookup `editedGrid && editedGrid[r] && editedGrid[r][c]` — the
override cell addressed by `(r, c)`, `none` when the grid is `null` or either
index is out of range. -/
def lookupCell (og : Option OverrideGrid) (r c : Nat) : Option OverrideCell :=
  match og with
  | none => none
  | some g =>
    match g[r]? with
    | none => none
    | some row => row[c]?

/-- Well-formedness of one (possibly absent) override cell as `Calculate.tsx`
constructs them: a populated cell carries a numeric face in 1..6, and a
populated color is a non-empty string (a hex color). -/
def wfCellB (cell : Option OverrideCell) : Bool :=
  match cell with
  | none => true
  | some cc =>
    (match cc.face with
      | some n => faceInRange n
      | none => false) &&
    (match cc.color with
      | some s => decide (s ≠ "")
      | none => true)

/-- Well-formedness of a face-color table: every entry is a non-empty string. -/
def wfFaceColors (fc : FaceColors) : Bool :=
  decide (fc.c1 ≠ "") && decide (fc.c2 ≠ "") && decide (fc.c3 ≠ "") &&
  decide (fc.c4 ≠ "") && decide (fc.c5 ≠ "") && decide (fc.c6 ≠ "")

/-- Hex-digit test used to express "color is a hex string". -/
def isHexChar (ch : Char) : Bool :=
  ch.isDigit || (decide ('a' ≤ ch) && decide (ch ≤ 'f')) ||
    (decide ('A' ≤ ch) && decide (ch ≤ 'F'))

/-- A hex color string: a `#` followed by one or more hex digits (stated over
the string's character list). -/
def isHexColorStr (s : String) : Bool :=
  match s.data with
  | [] => false
  | c0 :: rest => c0 == '#' && decide (rest ≠ []) && rest.all isHexChar

/-- Hex well-formedness of a face-color table. -/
def hexFaceColors (fc : FaceColors) : Bool :=
  isHexColorStr fc.c1 && isHexColorStr fc.c2 && isHexColorStr fc.c3 &&
  isHexColorStr fc.c4 && isHexColorStr fc.c5 && isHexColorStr fc.c6

/-- Hex well-formedness of one (possibly absent) override cell: a populated
face is in 1..6 and a populated, truthy color is a hex string. -/
def hexCellB (cell : Option OverrideCell) : Bool :=
  match cell with
  | none => true
  | some cc =>
    (match cc.face with
      | some n => faceInRange n
      | none => false) &&
    (match cc.color with
      | some s => (s == "") || isHexColorStr s
      | none => true)

/-- Source `getFaceColors` (`Calculate.tsx` lines 104-115): black and white
force uniform pure colors; mixed alternates the two chosen colors with the
JavaScript `||` fallbacks `mixedA || "#FFFFFF"` and `mixedB || "#222222"`. -/
def getFaceColors (theme : Theme) (mixedA mixedB : Option String) : FaceColors :=
  match theme with
  | Theme.black => ⟨"#000000", "#000000", "#000000", "#000000", "#000000", "#000000"⟩
  | Theme.white => ⟨"#FFFFFF", "#FFFFFF", "#FFFFFF", "#FFFFFF", "#FFFFFF", "#FFFFFF"⟩
  | Theme.mixed =>
    let a := jsOrS mixedA "#FFFFFF"
    let b := jsOrS mixedB "#222222"
    ⟨a, b, a, b, a, b⟩

/-- Source `processCurrentImage` (`Calculate.tsx` line 157): the invert flag
passed to `processImage` is `diceTheme === "black"`. -/
def invertColors (theme : Theme) : Bool :=
  match theme with
  | Theme.black => true
  | _ => false

/-- Source initialization of the override layer (`Calculate.tsx` line 187):
`grid.map(row => row.map(v => ({ face: v, color: faceColors[v] })))`. -/
def initialEdited (grid : Grid) (faceColors : FaceColors) : OverrideGrid :=
  grid.map (fun row => row.map (fun v =>
    { face := some v, color := faceColors.lookup v, pipColor := none }))

/-- Lookup `faceColors[face]` where `face` itself may be `undefined`
(indexing a record with `undefined` yields `undefined`). -/
def faceLookupO (fc : FaceColors) : Option Nat → Option String
  | some n => fc.lookup n
  | none => none

/-- Per-tile resolution performed by the CSV serializer `downloadCSV`
(`Calculate.tsx` lines 307-319): the face is the override cell's `face` field
whenever the cell exists, else the grid value; the color is the override
cell's `color` when truthy, else `settings.faceColors[face]` at the resolved
face. -/
def resolveCSV (fc : FaceColors) (og : Option OverrideGrid) (r c v : Nat) :
    Option Nat × Option String :=
  let cell := lookupCell og r c
  let face : Option Nat :=
    match cell with
    | some cc => cc.face
    | none => some v
  let color : Option String :=
    match cell with
    | some cc => if truthyOpt cc.color then cc.color else faceLookupO fc face
    | none => faceLookupO fc face
  (face, color)

/-- Per-tile resolution performed by the preview renderer `DiceCanvas`
(part_000 lines 92-98): `diceValue` is the override's face under a
`typeof === 'number'` guard, else the grid value; `diceColor` is
`(override && override.color) || settings.faceColors[diceValue] || "#ffffff"`. -/
def resolveCanvas (fc : FaceColors) (og : Option OverrideGrid) (r c v : Nat) :
    Nat × String :=
  let override := lookupCell og r c
  let diceValue : Nat :=
    match override with
    | some o =>
      match o.face with
      | some n => n
      | none => v
    | none => v
  let diceColor : String :=
    jsOrS (override.bind OverrideCell.color) (jsOrS (fc.lookup diceValue) "#ffffff")
  (diceValue, diceColor)

/-- The merge rule as the spec words it: the resolved face is the override
cell's face when present, else the grid value; the resolved fill color is the
override cell's color when present, else `faceColors` indexed by the resolved
face.  This is the claim-side definition for the refinement comparison. -/
def mergeRuleSpec (fc : FaceColors) (cell : Option OverrideCell) (v : Nat) :
    Nat × String :=
  let face : Nat :=
    match cell with
    | some cc =>
      match cc.face with
      | some n => n
      | none => v
    | none => v
  let color : String :=
    match cell with
    | some cc =>
      match cc.color with
      | some s => s
      | none => (fc.lookup face).getD ""
    | none => (fc.lookup face).getD ""
  (face, color)

/-- Replace only the `pipColor` field of the override cell at `(r, c)`, when
that cell exists; used to state that neither resolver reads `pipColor`. -/
def setPipAt (og : OverrideGrid) (r c : Nat) (p : Option String) : OverrideGrid :=
  match og[r]? with
  | none => og
  | some row =>
    match row[c]? with
    | none => og
    | some cc => og.set r (row.set c { cc with pipColor := p })

/-- String rendering of the resolved face in the CSV (`String(face)`), where
`String(undefined)` is the text `undefined`. -/
def faceFieldStr : Option Nat → String
  | some n => toString n
  | none => "undefined"

/-- String rendering of the resolved color interpolated into the CSV template,
where an `undefined` color prints as the text `undefined`. -/
def colorFieldStr : Option String → String
  | some s => s
  | none => "undefined"

/-- One data row pushed by `downloadCSV` for cell `(r, c)` holding grid value
`v`: `[String(rowIndex+1), String(colIndex+1), String(face), quoted color]`. -/
def csvCellRow (fc : FaceColors) (og : Option OverrideGrid) (r c v : Nat) :
    List String :=
  let res := resolveCSV fc og r c v
  [toString (r + 1), toString (c + 1), faceFieldStr res.1,
    "\"" ++ colorFieldStr res.2 ++ "\""]

/-- The full `csvRows` array built by `downloadCSV`: the header then one row
per cell in row-major order; `none` when `diceGrid.length === 0` (the function
returns early and produces no CSV). -/
def downloadCSVRows (grid : Grid) (og : Option OverrideGrid) (fc : FaceColors) :
    Option (List (List String)) :=
  if grid.length = 0 then none
  else
    some (["Row", "Column", "Face", "Color"] ::
      (grid.mapIdx (fun r row =>
        row.mapIdx (fun c v => csvCellRow fc og r c v))).flatten)

/-- The CSV text: rows joined by commas, lines joined by newlines. -/
def downloadCSVContent (grid : Grid) (og : Option OverrideGrid)
    (fc : FaceColors) : Option String :=
  (downloadCSVRows grid og fc).map
    (fun rows => String.intercalate "\n" (rows.map (String.intercalate ",")))

/-- A tile-edit patch, `Partial<{ face: number; color?: string; pipColor?: string }>`:
`none` in a field means the key is absent from the patch object. -/
structure Patch where
  face : Option Nat
  color : Option String
  pipColor : Option String
  deriving DecidableEq

/-- Object spread `{ ...cell, ...patch }`: fields present in the patch win. -/
def mergePatch (cell : OverrideCell) (p : Patch) : OverrideCell :=
  { face := match p.face with | some n => some n | none => cell.face,
    color := match p.color with | some s => some s | none => cell.color,
    pipColor := match p.pipColor with | some s => some s | none => cell.pipColor }

/-- Reading a JavaScript array hole (or `{ ...undefined }`): every property is
`undefined`. -/
def holeCell : OverrideCell := { face := none, color := none, pipColor := none }

/-- JavaScript array assignment `row[c] = x`: in range it replaces the element;
past the end it grows the array to length `c + 1`, filling with holes. -/
def jsSetAt (row : List OverrideCell) (c : Nat) (x : OverrideCell) :
    List OverrideCell :=
  if c < row.length then row.set c x
  else row ++ List.replicate (c - row.length) holeCell ++ [x]

/-- Source `applyTileEdit` (`Calculate.tsx` lines 442-449).  A `null` state is
returned unchanged; otherwise the grid is deep-copied and
`copy[r][c] = { ...copy[r][c], ...patch }` executes: reading `copy[r]` out of
range throws a `TypeError` (the `Except.error` case), while an out-of-range
column silently grows row `r`. -/
def applyTileEdit (prev : Option OverrideGrid) (r c : Nat) (patch : Patch) :
    Except String (Option OverrideGrid) :=
  match prev with
  | none => Except.ok none
  | some g =>
    match g[r]? with
    | none => Except.error "TypeError: cannot read properties of undefined"
    | some row =>
      let old := (row[c]?).getD holeCell
      Except.ok (some (g.set r (jsSetAt row c (mergePatch old patch))))

/-- The override cell stored at `(r, c)` of a (non-null) override grid. -/
def cellAt (g : OverrideGrid) (r c : Nat) : Option OverrideCell :=
  match g[r]? with
  | none => none
  | some row => row[c]?

/-- What the preview renderer draws inside a tile beyond its background. -/
inductive PipDrawing where
  | noPips
  | fullLayout (face : Nat)
  | minimalDot
  deriving DecidableEq

/-- The per-tile pip decision of `DiceCanvas` (part_000 lines 105-111):
`drawDiceFace` runs only when `zoomedCellSize > 6 && settings.useShading`;
otherwise nothing at all is drawn over the background.  `minimalDot` is the
substitute the spec describes below the visibility threshold; the source never
produces it. -/
def pipDrawing (useShading : Bool) (zoomedCellSize : ℚ) (face : Nat) :
    PipDrawing :=
  if 6 < zoomedCellSize ∧ useShading = true then PipDrawing.fullLayout face
  else PipDrawing.noPips

/-- The grid value stored at `(r, c)` of the dice grid. -/
def gridCellAt (grid : Grid) (r c : Nat) : Option Nat :=
  match grid[r]? with
  | none => none
  | some row => row[c]?

/-- A tile carries no manual color edit: either no override cell exists there
(and the underlying grid value is a valid face), or the cell still holds the
initialization color of the black theme. -/
def blackNoColorEdit : Option OverrideCell → Nat → Bool
  | none, v => faceInRange v
  | some cc, _ => cc.color == some "#000000"

/-! ### Helper lemmas -/

theorem faceInRange_iff (n : Nat) : faceInRange n = true ↔ 1 ≤ n ∧ n ≤ 6 := by
  simp [faceInRange]

theorem lookup_of_range (fc : FaceColors) (n : Nat) (h : faceInRange n = true) :
    ∃ s, fc.lookup n = some s := by
  obtain ⟨h1, h2⟩ := (faceInRange_iff n).mp h
  interval_cases n <;> exact ⟨_, rfl⟩

theorem lookup_ne_empty (fc : FaceColors) (hfc : wfFaceColors fc = true)
    (n : Nat) (s : String) (h : fc.lookup n = some s) : s ≠ "" := by
  simp only [wfFaceColors, Bool.and_eq_true, decide_eq_true_eq] at hfc
  obtain ⟨⟨⟨⟨⟨w1, w2⟩, w3⟩, w4⟩, w5⟩, w6⟩ := hfc
  rcases n with _ | _ | _ | _ | _ | _ | _ | n <;>
    simp_all [FaceColors.lookup]

theorem lookup_hex (fc : FaceColors) (hfc : hexFaceColors fc = true)
    (n : Nat) (s : String) (h : fc.lookup n = some s) : isHexColorStr s = true := by
  simp only [hexFaceColors, Bool.and_eq_true] at hfc
  obtain ⟨⟨⟨⟨⟨w1, w2⟩, w3⟩, w4⟩, w5⟩, w6⟩ := hfc
  rcases n with _ | _ | _ | _ | _ | _ | _ | n <;>
    simp_all [FaceColors.lookup]

theorem hex_ne_empty (s : String) (h : isHexColorStr s = true) : s ≠ "" := by
  intro heq
  subst heq
  exact absurd h (by decide)

/-! ### Claim theorems -/

/-- Claim C8: the invert flag passed to the quantization step is true exactly
when the selected theme is black; the white and mixed themes never invert. -/
theorem claim8_invert_iff_black :
    (∀ t : Theme, invertColors t = true ↔ t = Theme.black) ∧
    invertColors Theme.white = false ∧ invertColors Theme.mixed = false := by
  refine ⟨fun t => ?_, rfl, rfl⟩
  cases t <;> simp [invertColors]

/-- Claim C6: for every theme the face-color table has exactly six entries,
one per face value 1..6; the black theme maps every face to the same dark
color, the white theme maps every face to the same bright color, and the
mixed theme alternates the chosen colors A and B with odd faces mapped to A
and even faces mapped to B. -/
theorem claim6_getFaceColors (a b : String) (ha : a ≠ "") (hb : b ≠ "") :
    (∀ (theme : Theme) (ma mb : Option String) (m : Nat),
      ((getFaceColors theme ma mb).lookup m).isSome = true ↔ (1 ≤ m ∧ m ≤ 6)) ∧
    (∀ n, 1 ≤ n → n ≤ 6 →
      (∀ ma mb, (getFaceColors Theme.black ma mb).lookup n = some "#000000") ∧
      (∀ ma mb, (getFaceColors Theme.white ma mb).lookup n = some "#FFFFFF") ∧
      (getFaceColors Theme.mixed (some a) (some b)).lookup n =
        some (if n % 2 = 1 then a else b)) := by
  constructor
  · intro theme ma mb m
    rcases m with _ | _ | _ | _ | _ | _ | _ | m <;>
      cases theme <;> simp [getFaceColors, FaceColors.lookup]
  · intro n h1 h6
    refine ⟨fun ma mb => ?_, fun ma mb => ?_, ?_⟩ <;>
      interval_cases n <;> simp [getFaceColors, FaceColors.lookup, jsOrS, ha, hb]

/-- Claim C6 witness: the theorem applied to the source defaults for the two
mixed colors. -/
theorem claim6_witness :
    (∀ (theme : Theme) (ma mb : Option String) (m : Nat),
      ((getFaceColors theme ma mb).lookup m).isSome = true ↔ (1 ≤ m ∧ m ≤ 6)) ∧
    (∀ n, 1 ≤ n → n ≤ 6 →
      (∀ ma mb, (getFaceColors Theme.black ma mb).lookup n = some "#000000") ∧
      (∀ ma mb, (getFaceColors Theme.white ma mb).lookup n = some "#FFFFFF") ∧
      (getFaceColors Theme.mixed (some "#ffcc00") (some "#00aaff")).lookup n =
        some (if n % 2 = 1 then "#ffcc00" else "#00aaff")) :=
  claim6_getFaceColors "#ffcc00" "#00aaff" (by decide) (by decide)

/-- Claim C2: initializing the override grid from the generated grid and the
color table and then applying the merge rule reproduces the original faces
and the original color-table colors at every cell (round-trip law). -/
theorem claim2_roundtrip (grid : Grid) (fc : FaceColors) (r c v : Nat)
    (hv : gridCellAt grid r c = some v) (hrange : faceInRange v = true) :
    resolveCSV fc (some (initialEdited grid fc)) r c v = (some v, fc.lookup v) ∧
    (∀ s, fc.lookup v = some s →
      mergeRuleSpec fc (lookupCell (some (initialEdited grid fc)) r c) v = (v, s)) := by
  unfold gridCellAt at hv
  rcases hrow : grid[r]? with _ | row
  · rw [hrow] at hv; exact absurd hv (by simp)
  · rw [hrow] at hv
    simp only at hv
    have hcell : lookupCell (some (initialEdited grid fc)) r c =
        some { face := some v, color := fc.lookup v, pipColor := none } := by
      simp [lookupCell, initialEdited, List.getElem?_map, hrow, hv]
    constructor
    · simp only [resolveCSV, hcell]
      rcases hlk : fc.lookup v with _ | s
      · simp [truthyOpt, faceLookupO, hlk]
      · by_cases hs : s = "" <;> simp [truthyOpt, faceLookupO, hlk, hs]
    · intro s hs
      simp [mergeRuleSpec, hcell, hs]

/-- Claim C2 witness: round trip on a concrete 1x2 grid. -/
theorem claim2_witness :
    resolveCSV ⟨"#A", "#B", "#C", "#D", "#E", "#F"⟩
        (some (initialEdited [[3, 5]] ⟨"#A", "#B", "#C", "#D", "#E", "#F"⟩)) 0 1 5
      = (some 5, (⟨"#A", "#B", "#C", "#D", "#E", "#F"⟩ : FaceColors).lookup 5) ∧
    (∀ s, (⟨"#A", "#B", "#C", "#D", "#E", "#F"⟩ : FaceColors).lookup 5 = some s →
      mergeRuleSpec ⟨"#A", "#B", "#C", "#D", "#E", "#F"⟩
        (lookupCell (some (initialEdited [[3, 5]] ⟨"#A", "#B", "#C", "#D", "#E", "#F"⟩)) 0 1) 5
        = (5, s)) :=
  claim2_roundtrip [[3, 5]] ⟨"#A", "#B", "#C", "#D", "#E", "#F"⟩ 0 1 5 (by rfl) (by decide)

/-- Claim C9: under the black theme the color table maps all six faces to the
same dark color, and, absent manual per-tile color edits, the Color field of
every CSV data row is the same quoted dark color regardless of the resolved
face value. -/
theorem claim9_black_csv_color (ma mb : Option String) (og : Option OverrideGrid)
    (r c v : Nat) (h : blackNoColorEdit (lookupCell og r c) v = true) :
    (∀ n, 1 ≤ n → n ≤ 6 →
      (getFaceColors Theme.black ma mb).lookup n = some "#000000") ∧
    (resolveCSV (getFaceColors Theme.black ma mb) og r c v).2 = some "#000000" ∧
    (csvCellRow (getFaceColors Theme.black ma mb) og r c v)[3]? =
      some "\"#000000\"" := by
  have htab : ∀ n, 1 ≤ n → n ≤ 6 →
      (getFaceColors Theme.black ma mb).lookup n = some "#000000" := by
    intro n h1 h6
    interval_cases n <;> rfl
  have hcol : (resolveCSV (getFaceColors Theme.black ma mb) og r c v).2 =
      some "#000000" := by
    rcases hcell : lookupCell og r c with _ | cc
    · rw [hcell] at h
      simp only [blackNoColorEdit] at h
      obtain ⟨h1, h6⟩ := (faceInRange_iff v).mp h
      simp only [resolveCSV, hcell, faceLookupO]
      exact htab v h1 h6
    · rw [hcell] at h
      simp only [blackNoColorEdit] at h
      have hc : cc.color = some "#000000" := by simpa using h
      simp [resolveCSV, hcell, truthyOpt, hc]
  exact ⟨htab, hcol, by simp [csvCellRow, hcol, colorFieldStr]⟩

/-- Claim C9 witness: a black-theme grid cell with a face edit but no color
edit still serializes the dark color. -/
theorem claim9_witness :
    (∀ n, 1 ≤ n → n ≤ 6 →
      (getFaceColors Theme.black none none).lookup n = some "#000000") ∧
    (resolveCSV (getFaceColors Theme.black none none)
      (some [[⟨some 6, some "#000000", none⟩]]) 0 0 2).2 = some "#000000" ∧
    (csvCellRow (getFaceColors Theme.black none none)
      (some [[⟨some 6, some "#000000", none⟩]]) 0 0 2)[3]? = some "\"#000000\"" :=
  claim9_black_csv_color none none (some [[⟨some 6, some "#000000", none⟩]]) 0 0 2
    (by decide)

/-- Claim C7 counterexample: at a rendered cell size of 5 (below the 6-pixel
visibility threshold) with shading enabled, the preview renderer draws no pips
at all — in particular it does not substitute the minimal centered dot the
claim describes. -/
theorem claim7_counterexample :
    pipDrawing true 5 3 = PipDrawing.noPips ∧
    pipDrawing true 5 3 ≠ PipDrawing.minimalDot := by
  have h : pipDrawing true 5 3 = PipDrawing.noPips := by norm_num [pipDrawing]
  exact ⟨h, by rw [h]; decide⟩

/-- Claim C7 as amended: at or below the 6-pixel visibility threshold (or with
shading disabled) the renderer draws no pips whatsoever — the minimal-dot
substitution never happens; the full pip layout is drawn exactly when the cell
size exceeds the threshold and shading is enabled. -/
theorem claim7_amended_no_dot (sh : Bool) (s : ℚ) (face : Nat) :
    (s ≤ 6 → pipDrawing sh s face = PipDrawing.noPips) ∧
    (sh = false → pipDrawing sh s face = PipDrawing.noPips) ∧
    (6 < s → sh = true → pipDrawing sh s face = PipDrawing.fullLayout face) ∧
    pipDrawing sh s face ≠ PipDrawing.minimalDot := by
  refine ⟨fun hle => ?_, fun hsh => ?_, fun hlt hsh => ?_, ?_⟩
  · rw [pipDrawing, if_neg]
    rintro ⟨h6, -⟩
    exact absurd hle (not_le.mpr h6)
  · rw [pipDrawing, if_neg]
    rintro ⟨-, h⟩
    rw [hsh] at h
    exact Bool.false_ne_true h
  · rw [pipDrawing, if_pos ⟨hlt, hsh⟩]
  · rw [pipDrawing]
    split <;> intro h <;> exact PipDrawing.noConfusion h

/-- Claim C7 witness: the amended theorem applied at concrete sizes on both
sides of the threshold. -/
theorem claim7_witness :
    pipDrawing true 5 3 = PipDrawing.noPips ∧
    pipDrawing false 100 3 = PipDrawing.noPips ∧
    pipDrawing true 7 3 = PipDrawing.fullLayout 3 :=
  ⟨(claim7_amended_no_dot true 5 3).1 (by norm_num),
    (claim7_amended_no_dot false 100 3).2.1 rfl,
    (claim7_amended_no_dot true 7 3).2.2.1 (by norm_num) rfl⟩

/-- Claim C4: out-of-range override edits are not rejected.  On a 1x1 override
grid, editing column 1 silently grows row 0 to two cells (the prior grid is
not "left untouched" and no error reaches the caller), and editing row 1
throws a TypeError instead of reporting the input-contract violation. -/
theorem claim4_out_of_range_not_rejected :
    applyTileEdit (some [[⟨some 3, some "#FFFFFF", none⟩]]) 0 1
        ⟨some 5, none, none⟩
      = Except.ok (some [[⟨some 3, some "#FFFFFF", none⟩, ⟨some 5, none, none⟩]]) ∧
    applyTileEdit (some [[⟨some 3, some "#FFFFFF", none⟩]]) 1 0
        ⟨some 5, none, none⟩
      = Except.error "TypeError: cannot read properties of undefined" := by
  exact ⟨rfl, rfl⟩

/-- Claim C10 counterexample: an edit addressed past the end of a row changes
the override grid's shape — a 1x1 grid becomes 1x2 — so shape preservation
fails for out-of-range input. -/
theorem claim10_counterexample :
    applyTileEdit (some [[⟨some 2, none, none⟩]]) 0 1 ⟨some 5, none, none⟩
      = Except.ok (some [[⟨some 2, none, none⟩, ⟨some 5, none, none⟩]]) ∧
    ([[⟨some 2, none, none⟩, ⟨some 5, none, none⟩]] : OverrideGrid).map List.length
      ≠ ([[⟨some 2, none, none⟩]] : OverrideGrid).map List.length := by
  exact ⟨rfl, by decide⟩

/-- Claim C10 as amended: a null override state is a no-op for every edit, and
an edit whose indices are in range returns a grid with the same number of rows
and the same length for every row. -/
theorem claim10_amended_shape :
    (∀ (r c : Nat) (p : Patch), applyTileEdit none r c p = Except.ok none) ∧
    (∀ (g : OverrideGrid) (r c : Nat) (p : Patch) (row : List OverrideCell),
      g[r]? = some row → c < row.length →
      ∃ g', applyTileEdit (some g) r c p = Except.ok (some g') ∧
        g'.length = g.length ∧
        ∀ i : Nat, (g'[i]?).map List.length = (g[i]?).map List.length) := by
  constructor
  · intro r c p
    rfl
  · intro g r c p row hr hc
    refine ⟨g.set r (jsSetAt row c (mergePatch ((row[c]?).getD holeCell) p)),
      ?_, by simp, ?_⟩
    · simp [applyTileEdit, hr]
    · intro i
      rw [jsSetAt, if_pos hc]
      by_cases hi : i = r
      · subst hi
        have hlt : i < g.length := by
          have := List.getElem?_eq_some.mp hr
          exact this.1
        rw [List.getElem?_set_self hlt, hr]
        simp
      · rw [List.getElem?_set_ne (fun hne => hi hne.symm)]

/-- Claim C10 witness: the amended theorem at a concrete in-range edit and the
null case at concrete indices. -/
theorem claim10_witness :
    applyTileEdit none 4 9 ⟨some 2, none, none⟩ = Except.ok none ∧
    ∃ g', applyTileEdit (some [[⟨some 2, none, none⟩]]) 0 0 ⟨some 5, none, none⟩
        = Except.ok (some g') ∧
      g'.length = ([[⟨some 2, none, none⟩]] : OverrideGrid).length ∧
      ∀ i : Nat, (g'[i]?).map List.length
        = (([[⟨some 2, none, none⟩]] : OverrideGrid)[i]?).map List.length :=
  ⟨claim10_amended_shape.1 4 9 ⟨some 2, none, none⟩,
    claim10_amended_shape.2 [[⟨some 2, none, none⟩]] 0 0 ⟨some 5, none, none⟩
      [⟨some 2, none, none⟩] rfl (by decide)⟩

/-- Claim C3: an in-range tile edit merges the patch into exactly the
addressed cell — unpatched fields of that cell and every other cell are
unchanged.  The embedding is a pure function of the previous grid, so the
previous override grid value itself is untouched by construction (the deep
copy in the source is what guarantees this absence of aliasing at runtime). -/
theorem claim3_applyTileEdit_locality (g : OverrideGrid) (r c : Nat) (p : Patch)
    (row : List OverrideCell) (hr : g[r]? = some row) (hc : c < row.length) :
    ∃ g', applyTileEdit (some g) r c p = Except.ok (some g') ∧
      cellAt g' r c = some (mergePatch ((cellAt g r c).getD holeCell) p) ∧
      (∀ i j : Nat, ¬(i = r ∧ j = c) → cellAt g' i j = cellAt g i j) ∧
      (p.face = none →
        (mergePatch ((cellAt g r c).getD holeCell) p).face
          = ((cellAt g r c).getD holeCell).face) ∧
      (p.color = none →
        (mergePatch ((cellAt g r c).getD holeCell) p).color
          = ((cellAt g r c).getD holeCell).color) ∧
      (p.pipColor = none →
        (mergePatch ((cellAt g r c).getD holeCell) p).pipColor
          = ((cellAt g r c).getD holeCell).pipColor) := by
  have hltr : r < g.length := (List.getElem?_eq_some.mp hr).1
  have hcg : cellAt g r c = row[c]? := by simp [cellAt, hr]
  refine ⟨g.set r (jsSetAt row c (mergePatch ((row[c]?).getD holeCell) p)),
    by simp [applyTileEdit, hr], ?_, ?_, ?_, ?_, ?_⟩
  · rw [jsSetAt, if_pos hc, hcg]
    simp [cellAt, List.getElem?_set_self hltr, List.getElem?_set_self hc]
  · intro i j hij
    rw [jsSetAt, if_pos hc]
    by_cases hi : i = r
    · subst hi
      have hj : c ≠ j := fun h => hij ⟨rfl, h.symm⟩
      simp [cellAt, List.getElem?_set_self hltr, hr, List.getElem?_set_ne hj]
    · simp [cellAt, List.getElem?_set_ne (fun h => hi h.symm)]
  · intro hp
    rw [hcg]
    simp [mergePatch, hp]
  · intro hp
    rw [hcg]
    simp [mergePatch, hp]
  · intro hp
    rw [hcg]
    simp [mergePatch, hp]

/-- Claim C3 witness: a color-only patch on cell (0, 1) of a concrete 1x2
override grid. -/
theorem claim3_witness :
    ∃ g', applyTileEdit (some [[⟨some 1, some "#111111", none⟩,
          ⟨some 2, some "#222222", none⟩]]) 0 1 ⟨none, some "#123456", none⟩
        = Except.ok (some g') ∧
      cellAt g' 0 1 = some (mergePatch
        ((cellAt [[⟨some 1, some "#111111", none⟩, ⟨some 2, some "#222222", none⟩]]
          0 1).getD holeCell) ⟨none, some "#123456", none⟩) ∧
      (∀ i j : Nat, ¬(i = 0 ∧ j = 1) →
        cellAt g' i j
          = cellAt [[⟨some 1, some "#111111", none⟩, ⟨some 2, some "#222222", none⟩]]
              i j) ∧
      ((⟨none, some "#123456", none⟩ : Patch).face = none →
        (mergePatch ((cellAt [[⟨some 1, some "#111111", none⟩,
            ⟨some 2, some "#222222", none⟩]] 0 1).getD holeCell)
            ⟨none, some "#123456", none⟩).face
          = ((cellAt [[⟨some 1, some "#111111", none⟩,
              ⟨some 2, some "#222222", none⟩]] 0 1).getD holeCell).face) ∧
      ((⟨none, some "#123456", none⟩ : Patch).color = none →
        (mergePatch ((cellAt [[⟨some 1, some "#111111", none⟩,
            ⟨some 2, some "#222222", none⟩]] 0 1).getD holeCell)
            ⟨none, some "#123456", none⟩).color
          = ((cellAt [[⟨some 1, some "#111111", none⟩,
              ⟨some 2, some "#222222", none⟩]] 0 1).getD holeCell).color) ∧
      ((⟨none, some "#123456", none⟩ : Patch).pipColor = none →
        (mergePatch ((cellAt [[⟨some 1, some "#111111", none⟩,
            ⟨some 2, some "#222222", none⟩]] 0 1).getD holeCell)
            ⟨none, some "#123456", none⟩).pipColor
          = ((cellAt [[⟨some 1, some "#111111", none⟩,
              ⟨some 2, some "#222222", none⟩]] 0 1).getD holeCell).pipColor) :=
  claim3_applyTileEdit_locality
    [[⟨some 1, some "#111111", none⟩, ⟨some 2, some "#222222", none⟩]] 0 1
    ⟨none, some "#123456", none⟩
    [⟨some 1, some "#111111", none⟩, ⟨some 2, some "#222222", none⟩] rfl (by decide)

theorem lookupCell_setPipAt (og : OverrideGrid) (r c : Nat) (p : Option String) :
    lookupCell (some (setPipAt og r c p)) r c
      = (lookupCell (some og) r c).map (fun cc => { cc with pipColor := p }) := by
  unfold setPipAt
  rcases hr : og[r]? with _ | row
  · simp [lookupCell, hr]
  · rcases hcc : row[c]? with _ | cc
    · simp [lookupCell, hr, hcc]
    · have hltr : r < og.length := (List.getElem?_eq_some.mp hr).1
      have hltc : c < row.length := (List.getElem?_eq_some.mp hcc).1
      simp [lookupCell, hr, hcc, List.getElem?_set_self hltr,
        List.getElem?_set_self hltc]

/-- Claim C1: over well-formed data (faces in 1..6, non-empty colors), the CSV
serializer and the preview renderer resolve each tile by the same merge rule —
override face when the cell is present, else the grid value; override color
when present, else the face-color table at the resolved face — and neither
resolution reads the cell's pipColor field, so that field is treated
identically (ignored) by both. -/
theorem claim1_merge_rule_agreement (fc : FaceColors) (og : OverrideGrid)
    (r c v : Nat) (hv : faceInRange v = true)
    (hcell : wfCellB (lookupCell (some og) r c) = true)
    (hfc : wfFaceColors fc = true) :
    resolveCSV fc (some og) r c v
        = (some (mergeRuleSpec fc (lookupCell (some og) r c) v).1,
          some (mergeRuleSpec fc (lookupCell (some og) r c) v).2) ∧
    resolveCanvas fc (some og) r c v
        = mergeRuleSpec fc (lookupCell (some og) r c) v ∧
    ∀ p : Option String,
      resolveCSV fc (some (setPipAt og r c p)) r c v
          = resolveCSV fc (some og) r c v ∧
      resolveCanvas fc (some (setPipAt og r c p)) r c v
          = resolveCanvas fc (some og) r c v := by
  rcases hcl : lookupCell (some og) r c with _ | cc
  · obtain ⟨s, hs⟩ := lookup_of_range fc v hv
    have hne := lookup_ne_empty fc hfc v s hs
    refine ⟨?_, ?_, fun p => ?_⟩
    · simp [resolveCSV, mergeRuleSpec, hcl, faceLookupO, hs]
    · simp [resolveCanvas, mergeRuleSpec, hcl, jsOrS, hs, hne]
    · constructor <;>
        simp [resolveCSV, resolveCanvas, lookupCell_setPipAt, hcl]
  · rw [hcl] at hcell
    simp only [wfCellB] at hcell
    rcases hf : cc.face with _ | n
    · rw [hf] at hcell
      simp at hcell
    · rw [hf] at hcell
      simp only [Bool.and_eq_true] at hcell
      obtain ⟨hfn, hcolwf⟩ := hcell
      obtain ⟨t, ht⟩ := lookup_of_range fc n hfn
      have htne := lookup_ne_empty fc hfc n t ht
      rcases hcol : cc.color with _ | s
      · refine ⟨?_, ?_, fun p => ?_⟩
        · simp [resolveCSV, mergeRuleSpec, hcl, hf, hcol, truthyOpt,
            faceLookupO, ht]
        · simp [resolveCanvas, mergeRuleSpec, hcl, hf, hcol, jsOrS, ht, htne]
        · constructor <;>
            simp [resolveCSV, resolveCanvas, lookupCell_setPipAt, hcl, hf, hcol]
      · rw [hcol] at hcolwf
        simp only [decide_eq_true_eq] at hcolwf
        refine ⟨?_, ?_, fun p => ?_⟩
        · simp [resolveCSV, mergeRuleSpec, hcl, hf, hcol, truthyOpt, hcolwf]
        · simp [resolveCanvas, mergeRuleSpec, hcl, hf, hcol, jsOrS, hcolwf]
        · constructor <;>
            simp [resolveCSV, resolveCanvas, lookupCell_setPipAt, hcl, hf, hcol]

/-- Claim C1 witness: the agreement theorem at a concrete table, override grid
and grid value. -/
theorem claim1_witness :
    resolveCSV ⟨"#101010", "#202020", "#303030", "#404040", "#505050", "#606060"⟩
        (some [[⟨some 2, some "#ABCDEF", some "#000000"⟩]]) 0 0 5
        = (some (mergeRuleSpec
            ⟨"#101010", "#202020", "#303030", "#404040", "#505050", "#606060"⟩
            (lookupCell (some [[⟨some 2, some "#ABCDEF", some "#000000"⟩]]) 0 0)
            5).1,
          some (mergeRuleSpec
            ⟨"#101010", "#202020", "#303030", "#404040", "#505050", "#606060"⟩
            (lookupCell (some [[⟨some 2, some "#ABCDEF", some "#000000"⟩]]) 0 0)
            5).2) ∧
    resolveCanvas ⟨"#101010", "#202020", "#303030", "#404040", "#505050", "#606060"⟩
        (some [[⟨some 2, some "#ABCDEF", some "#000000"⟩]]) 0 0 5
        = mergeRuleSpec
            ⟨"#101010", "#202020", "#303030", "#404040", "#505050", "#606060"⟩
            (lookupCell (some [[⟨some 2, some "#ABCDEF", some "#000000"⟩]]) 0 0)
            5 ∧
    ∀ p : Option String,
      resolveCSV ⟨"#101010", "#202020", "#303030", "#404040", "#505050", "#606060"⟩
          (some (setPipAt [[⟨some 2, some "#ABCDEF", some "#000000"⟩]] 0 0 p)) 0 0 5
          = resolveCSV
              ⟨"#101010", "#202020", "#303030", "#404040", "#505050", "#606060"⟩
              (some [[⟨some 2, some "#ABCDEF", some "#000000"⟩]]) 0 0 5 ∧
      resolveCanvas
          ⟨"#101010", "#202020", "#303030", "#404040", "#505050", "#606060"⟩
          (some (setPipAt [[⟨some 2, some "#ABCDEF", some "#000000"⟩]] 0 0 p)) 0 0 5
          = resolveCanvas
              ⟨"#101010", "#202020", "#303030", "#404040", "#505050", "#606060"⟩
              (some [[⟨some 2, some "#ABCDEF", some "#000000"⟩]]) 0 0 5 :=
  claim1_merge_rule_agreement
    ⟨"#101010", "#202020", "#303030", "#404040", "#505050", "#606060"⟩
    [[⟨some 2, some "#ABCDEF", some "#000000"⟩]] 0 0 5
    (by decide) (by decide) (by decide)

theorem length_flatten_uniform {α : Type} (C : Nat) :
    ∀ ls : List (List α), (∀ l ∈ ls, l.length = C) →
      ls.flatten.length = ls.length * C := by
  intro ls
  induction ls with
  | nil => intro h; simp
  | cons l t ih =>
    intro h
    have hl : l.length = C := h l (by simp)
    have ht := ih (fun x hx => h x (by simp [hx]))
    simp only [List.flatten_cons, List.length_append, List.length_cons, ht, hl,
      Nat.succ_mul]
    omega

theorem getElem_flatten_uniform {α : Type} (C : Nat) :
    ∀ (ls : List (List α)) (i j : Nat), (∀ l ∈ ls, l.length = C) → j < C →
      ls.flatten[i * C + j]? = (ls[i]?).bind (fun l => l[j]?) := by
  intro ls
  induction ls with
  | nil => intro i j h hj; simp
  | cons l t ih =>
    intro i j h hj
    have hl : l.length = C := h l (by simp)
    cases i with
    | zero =>
      rw [List.flatten_cons, Nat.zero_mul, Nat.zero_add,
        List.getElem?_append_left (by omega)]
      simp
    | succ i' =>
      rw [List.flatten_cons,
        List.getElem?_append_right (by rw [hl, Nat.succ_mul]; omega)]
      have heq : (i' + 1) * C + j - l.length = i' * C + j := by
        rw [hl, Nat.succ_mul]; omega
      rw [heq, ih i' j (fun x hx => h x (by simp [hx])) hj]
      simp

theorem resolveCSV_wf (fc : FaceColors) (og : Option OverrideGrid) (r c v : Nat)
    (hv : faceInRange v = true) (hcell : hexCellB (lookupCell og r c) = true)
    (hfc : hexFaceColors fc = true) :
    ∃ f col, resolveCSV fc og r c v = (some f, some col) ∧
      1 ≤ f ∧ f ≤ 6 ∧ isHexColorStr col = true := by
  rcases hcl : lookupCell og r c with _ | cc
  · obtain ⟨s, hs⟩ := lookup_of_range fc v hv
    have hhex := lookup_hex fc hfc v s hs
    obtain ⟨h1, h6⟩ := (faceInRange_iff v).mp hv
    exact ⟨v, s, by simp [resolveCSV, hcl, faceLookupO, hs], h1, h6, hhex⟩
  · rw [hcl] at hcell
    simp only [hexCellB] at hcell
    rcases hf : cc.face with _ | n
    · rw [hf] at hcell
      simp at hcell
    · rw [hf] at hcell
      simp only [Bool.and_eq_true] at hcell
      obtain ⟨hfn, hcol⟩ := hcell
      obtain ⟨h1, h6⟩ := (faceInRange_iff n).mp hfn
      obtain ⟨t, ht⟩ := lookup_of_range fc n hfn
      have hthex := lookup_hex fc hfc n t ht
      rcases hc : cc.color with _ | s
      · exact ⟨n, t,
          by simp [resolveCSV, hcl, hf, hc, truthyOpt, faceLookupO, ht],
          h1, h6, hthex⟩
      · rw [hc] at hcol
        by_cases hse : s = ""
        · subst hse
          refine ⟨n, t, ?_, h1, h6, hthex⟩
          simp [resolveCSV, hcl, hf, hc, truthyOpt, faceLookupO, ht]
        · have hshex : isHexColorStr s = true := by
            simp only [Bool.or_eq_true, beq_iff_eq] at hcol
            rcases hcol with h | h
            · exact absurd h hse
            · exact h
          refine ⟨n, s, ?_, h1, h6, hshex⟩
          simp [resolveCSV, hcl, hf, hc, truthyOpt, hse]

/-- Claim C5: on a non-empty uniform R-by-C grid (cells in 1..6, well-formed
override cells, hex color tables) the CSV has exactly R*C + 1 rows: the
header `Row,Column,Face,Color` followed by one row per cell in row-major
order carrying the 1-based indices, the resolved face (an integer in 1..6)
and the resolved color as a quoted hex string. -/
theorem claim5_csv_shape (grid : Grid) (og : Option OverrideGrid)
    (fc : FaceColors) (R C : Nat) (hR : grid.length = R)
    (hC : ∀ row ∈ grid, row.length = C) (h0 : 0 < R)
    (hcells : ∀ row ∈ grid, ∀ v ∈ row, faceInRange v = true)
    (hog : ∀ i j : Nat, hexCellB (lookupCell og i j) = true)
    (hfc : hexFaceColors fc = true) :
    ∃ rows, downloadCSVRows grid og fc = some rows ∧
      rows.length = R * C + 1 ∧
      rows[0]? = some ["Row", "Column", "Face", "Color"] ∧
      ∀ i j : Nat, i < R → j < C →
        ∃ v f col, gridCellAt grid i j = some v ∧
          resolveCSV fc og i j v = (some f, some col) ∧
          1 ≤ f ∧ f ≤ 6 ∧ isHexColorStr col = true ∧
          rows[1 + (i * C + j)]? =
            some [toString (i + 1), toString (j + 1), toString f,
              "\"" ++ col ++ "\""] := by
  have hne : ¬ grid.length = 0 := by omega
  have hlens : ∀ l ∈ grid.mapIdx (fun r row =>
      row.mapIdx (fun c v => csvCellRow fc og r c v)), l.length = C := by
    intro l hl
    rw [List.mem_mapIdx] at hl
    obtain ⟨i, hi, hval⟩ := hl
    rw [← hval, List.length_mapIdx]
    exact hC _ (List.getElem_mem hi)
  refine ⟨["Row", "Column", "Face", "Color"] ::
    (grid.mapIdx (fun r row =>
      row.mapIdx (fun c v => csvCellRow fc og r c v))).flatten,
    by rw [downloadCSVRows, if_neg hne], ?_, by simp, ?_⟩
  · rw [List.length_cons, length_flatten_uniform C _ hlens, List.length_mapIdx,
      hR]
  · intro i j hi hj
    have higlen : i < grid.length := by omega
    have hrow : grid[i]? = some grid[i] := List.getElem?_eq_getElem higlen
    have hjrow : j < (grid[i]).length := by
      rw [hC _ (List.getElem_mem higlen)]
      exact hj
    have hv : gridCellAt grid i j = some (grid[i])[j] := by
      simp [gridCellAt, hrow, List.getElem?_eq_getElem hjrow]
    have hvr : faceInRange (grid[i])[j] = true :=
      hcells _ (List.getElem_mem higlen) _ (List.getElem_mem hjrow)
    obtain ⟨f, col, hres, h1, h6, hhex⟩ :=
      resolveCSV_wf fc og i j ((grid[i])[j]) hvr (hog i j) hfc
    refine ⟨(grid[i])[j], f, col, hv, hres, h1, h6, hhex, ?_⟩
    rw [show (1 : Nat) + (i * C + j) = (i * C + j) + 1 by omega,
      List.getElem?_cons_succ,
      getElem_flatten_uniform C _ i j hlens hj,
      List.getElem?_mapIdx, hrow]
    simp [List.getElem?_mapIdx, List.getElem?_eq_getElem hjrow, csvCellRow,
      hres, faceFieldStr, colorFieldStr]

/-- Claim C5 witness: the CSV shape theorem on a concrete 2x2 grid with no
override grid. -/
theorem claim5_witness :
    ∃ rows, downloadCSVRows [[1, 2], [3, 4]] none
        ⟨"#FF0000", "#00FF00", "#0000FF", "#FFFF00", "#00FFFF", "#FF00FF"⟩
        = some rows ∧
      rows.length = 2 * 2 + 1 ∧
      rows[0]? = some ["Row", "Column", "Face", "Color"] ∧
      ∀ i j : Nat, i < 2 → j < 2 →
        ∃ v f col, gridCellAt [[1, 2], [3, 4]] i j = some v ∧
          resolveCSV ⟨"#FF0000", "#00FF00", "#0000FF", "#FFFF00", "#00FFFF", "#FF00FF"⟩
              none i j v = (some f, some col) ∧
          1 ≤ f ∧ f ≤ 6 ∧ isHexColorStr col = true ∧
          rows[1 + (i * 2 + j)]? =
            some [toString (i + 1), toString (j + 1), toString f,
              "\"" ++ col ++ "\""] :=
  claim5_csv_shape [[1, 2], [3, 4]] none
    ⟨"#FF0000", "#00FF00", "#0000FF", "#FFFF00", "#00FFFF", "#FF00FF"⟩ 2 2
    rfl (by decide) (by decide) (by decide) (fun i j => rfl) (by decide)

end DiceMosaic
